import Mathlib

/-!
Shallow embedding of `ninja_extra/controllers/controller_route/route_functions.py`
(the route-function adapter layer of django-ninja-extra): signature rewriting
(`get_required_api_func_signature`, the `_resolve_api_func_signature_` overrides),
request-time dispatch (`context_func` closures produced by
`convert_api_func_to_context_view` / `convert_async_api_func_to_context_view`),
keyword-argument filtering (`filter_registered_kwargs`) and `from_route`.

Python values that matter here are defaults of parameters and the sentinel
objects the module compares them with.  In the django-ninja version this code
targets, `ninja.params.Query` is a plain class (subclass of pydantic's
`FieldInfo`), so `type(params.Query)` is the builtin metaclass `type`; a user
default written as `Query(...)` is an instance of that class; a parameter with
no default carries `inspect.Parameter.empty`, which is itself the class
`_empty`.  Exceptions (`KeyError` from `dict.pop`, anything a permission check
raises) become an explicit `Except`; calls on the per-request controller
instance are recorded in an event trace so that "method M was (not) called"
is a statement about the model rather than a side channel.
-/

deriving instance DecidableEq for Except

namespace RouteFunctions

/-- Identity of a Python class relevant to this module: the builtin metaclass
`type`, the `ninja.params.Query` class, the `inspect._empty` sentinel class
(the value of `inspect.Parameter.empty`), or some other class, numbered. -/
inductive PyType where
  | type
  | query
  | paramEmpty
  | cls (n : Nat)
  deriving DecidableEq

/-- A Python value as far as this module can observe one: either a class
object (with the builtin metaclass `type`, which all classes appearing in
this module have), or a non-class instance of some class. -/
inductive PyVal where
  | classV (c : PyType)
  | instV (c : PyType)
  deriving DecidableEq

/-- Python's builtin `type(x)`, as the identity of the class of `x`: for a
class object that is the metaclass `type`; for an instance it is its class. -/
def pyTypeOf : PyVal → PyType
  | .classV _ => .type
  | .instV c => c

/-- The module-level name `params.Query`: the `ninja.params.Query` class. -/
def paramsQuery : PyVal := .classV .query

/-- The sentinel `inspect.Parameter.empty`, i.e. the class `inspect._empty`,
used by `inspect` as the default of a parameter that declares none. -/
def parameterEmpty : PyVal := .classV .paramEmpty

/-- The value `Query(...)` built at line 118: an instance of the `Query`
class marking a framework-managed query parameter with no concrete default. -/
def queryEllipsis : PyVal := .instV .query

/-- The kind of an `inspect.Parameter`. -/
inductive ParamKind where
  | positionalOnly
  | positionalOrKeyword
  | varPositional
  | keywordOnly
  | varKeyword
  deriving DecidableEq

/-- One `inspect.Parameter` of a handler signature: name, kind, default value
and type annotation (annotations are abstracted to numeric identifiers; the
only one the module itself produces is the route definition's resolved
paginated-request schema type). -/
structure Parameter where
  name : String
  kind : ParamKind
  default : PyVal
  annot : Nat
  deriving DecidableEq

/-- A handler (`api_func`): its `inspect.signature` parameter list in
declaration order, and whether it is declared `async def` (`is_async`). -/
structure ApiFunc where
  params : List Parameter
  is_async : Bool
  deriving DecidableEq

/-- A Python exception as it propagates out of this module: the `KeyError`
raised by `dict.pop` on a missing key, or any other exception, numbered
(permission-denial errors, handler-body errors, ...). -/
inductive PyExc where
  | keyError (key : String)
  | exc (code : Nat)
  deriving DecidableEq

/-- The controller's `check_permissions` attribute as the module may find it:
a plain method (`def`), whose body runs when called and either returns or
raises, or a coroutine method (`async def`), whose call merely builds a
coroutine object wrapping the body; the body runs only if that object is
awaited. -/
inductive PermCheck where
  | plain (r : Except PyExc Unit)
  | coroutine (r : Except PyExc Unit)
  deriving DecidableEq

/-- Semantics of the call expression `controller_instance.check_permissions()`
exactly as it appears at lines 62 and 73, with no `await` around it: a plain
method runs its body; a coroutine method only produces a (here discarded)
coroutine object, so its body never runs and nothing is raised. -/
def callNoAwait : PermCheck → Except PyExc Unit
  | .plain r => r
  | .coroutine _ => .ok ()

/-- The `**kwargs` dict of a request, keys with (abstracted, numeric)
values. Keys are unique in a Python dict. -/
abbrev Kwargs := List (String × Nat)

/-- The per-request controller instance (external collaborator): its
permission check and the six execution-strategy methods.  Each strategy takes
the original handler and either returns a (numeric) result or raises. -/
structure APIController where
  check_permissions : PermCheck
  run_view_func : ApiFunc → Except PyExc Nat
  run_object_view_func : ApiFunc → Except PyExc Nat
  run_list_view_func : ApiFunc → Except PyExc Nat
  async_run_view_func : ApiFunc → Except PyExc Nat
  async_run_object_view_func : ApiFunc → Except PyExc Nat
  async_run_list_view_func : ApiFunc → Except PyExc Nat

/-- The Route definition (external metadata): the factory building a
controller instance from `(request, *args, **kwargs)`, and the resolved
paginated-request schema type (as an annotation identifier). -/
structure Route where
  create_view_func_instance : Nat → List Nat → Kwargs → APIController
  resolve_paginated_request_schema : Nat

/-- Which of the three classes a RouteFunction instance belongs to. -/
inductive RFKind where
  | base
  | retrieveObject
  | paginated
  deriving DecidableEq

/-- A RouteFunction instance: its class, its Route definition, its handler,
and the `registered_filter` flag (a class attribute defaulting to `False`,
only ever set by `PaginatedRouteFunction._resolve_api_func_signature_`). -/
structure RouteFunction where
  kind : RFKind
  route_definition : Route
  api_func : ApiFunc
  registered_filter : Bool

/-- The names excluded from the exposed signature (line 26). -/
def skip_parameters : List String := ["context", "self", "request"]

/-- `get_required_api_func_signature` (lines 24-32): the handler's parameters
with `context`, `self` and `request` dropped, order and entries otherwise
untouched.  (The returned `sig_inspect` is only ever used for `.replace`,
which this embedding represents by the parameter list itself.) -/
def get_required_api_func_signature (api_func : ApiFunc) : List Parameter :=
  api_func.params.filter (fun parameter => !(skip_parameters.contains parameter.name))

/-- `RouteFunction._resolve_api_func_signature_` (lines 34-39): the exposed
signature is exactly the required parameter list. -/
def base_resolve_api_func_signature (api_func : ApiFunc) : List Parameter :=
  get_required_api_func_signature api_func

/-- The synthetic parameter built at lines 115-120: keyword-only, named
`filters`, default `Query(...)`, annotated with the route definition's
resolved paginated-request schema. -/
def filtersParameter (route_definition : Route) : Parameter :=
  ⟨"filters", .keywordOnly, queryEllipsis, route_definition.resolve_paginated_request_schema⟩

/-- `PaginatedRouteFunction._resolve_api_func_signature_` (lines 102-125):
computes the required list, tests `type(param.default) == type(params.Query)`
over it (line 111), and if no parameter passes, appends the synthetic
`filters` parameter and sets `registered_filter = True`.  Returns the exposed
parameter list together with the resulting `registered_filter` value (the
instance starts from the class default `False`). -/
def paginated_resolve_api_func_signature (route_definition : Route) (api_func : ApiFunc) :
    List Parameter × Bool :=
  let required_func_signature := get_required_api_func_signature api_func
  let has_query_param := required_func_signature.any
      (fun param => pyTypeOf param.default == pyTypeOf paramsQuery)
  if has_query_param then
    (required_func_signature, false)
  else
    (required_func_signature ++ [filtersParameter route_definition], true)

/-- Signature resolution as dispatched by class: the base behaviour for
`RouteFunction` and `RetrieveObjectRouteFunction` (which does not override
it), the overridden behaviour for `PaginatedRouteFunction`.  Returns the
exposed parameter list and the `registered_filter` value after resolution. -/
def resolve_api_func_signature (kind : RFKind) (route_definition : Route) (api_func : ApiFunc) :
    List Parameter × Bool :=
  match kind with
  | .paginated => paginated_resolve_api_func_signature route_definition api_func
  | _ => (base_resolve_api_func_signature api_func, false)

/-- Python's `dict.pop(key)` without a default argument: removes the entry if
the key is present, raises `KeyError(key)` otherwise. -/
def dict_pop (key : String) (kwargs : Kwargs) : Except PyExc Kwargs :=
  if kwargs.any (fun entry => entry.1 == key) then
    .ok (kwargs.filter (fun entry => !(entry.1 == key)))
  else
    .error (.keyError key)

/-- `filter_registered_kwargs`, dispatched by class: the base implementation
(lines 87-88) returns `kwargs` unchanged; the `PaginatedRouteFunction`
override (lines 133-136) first does an unguarded `kwargs.pop('filters')`
when `registered_filter` is set. -/
def RouteFunction.filter_registered_kwargs (self : RouteFunction) (kwargs : Kwargs) :
    Except PyExc Kwargs :=
  match self.kind with
  | .paginated => if self.registered_filter then dict_pop "filters" kwargs else .ok kwargs
  | _ => .ok kwargs

/-- `run_view_func`, dispatched by class: the base class (lines 78-79) calls
`controller_instance.run_view_func`, `RetrieveObjectRouteFunction` (92-93)
calls `run_object_view_func`, `PaginatedRouteFunction` (127-128) calls
`run_list_view_func`, each passing the original handler `self.api_func`. -/
def RouteFunction.run_view_func (self : RouteFunction) (controller_instance : APIController) :
    Except PyExc Nat :=
  match self.kind with
  | .base => controller_instance.run_view_func self.api_func
  | .retrieveObject => controller_instance.run_object_view_func self.api_func
  | .paginated => controller_instance.run_list_view_func self.api_func

/-- `async_run_view_func`, dispatched by class (lines 81-82, 95-96,
130-131): the asynchronous counterparts of `RouteFunction.run_view_func`. -/
def RouteFunction.async_run_view_func (self : RouteFunction) (controller_instance : APIController) :
    Except PyExc Nat :=
  match self.kind with
  | .base => controller_instance.async_run_view_func self.api_func
  | .retrieveObject => controller_instance.async_run_object_view_func self.api_func
  | .paginated => controller_instance.async_run_list_view_func self.api_func

/-- An observable call made on the per-request controller instance during one
invocation of a wrapped callable, in order: instance construction via the
Route definition's factory, the permission-check call, and which
execution-strategy method ran with which handler. -/
inductive Event where
  | createInstance
  | checkPermissions
  | ranRunViewFunc (f : ApiFunc)
  | ranRunObjectViewFunc (f : ApiFunc)
  | ranRunListViewFunc (f : ApiFunc)
  | ranAsyncRunViewFunc (f : ApiFunc)
  | ranAsyncRunObjectViewFunc (f : ApiFunc)
  | ranAsyncRunListViewFunc (f : ApiFunc)
  deriving DecidableEq

/-- The strategy event produced by the synchronous dispatch of each class. -/
def sync_strategy_event : RFKind → ApiFunc → Event
  | .base, f => .ranRunViewFunc f
  | .retrieveObject, f => .ranRunObjectViewFunc f
  | .paginated, f => .ranRunListViewFunc f

/-- The strategy event produced by the asynchronous dispatch of each class. -/
def async_strategy_event : RFKind → ApiFunc → Event
  | .base, f => .ranAsyncRunViewFunc f
  | .retrieveObject, f => .ranAsyncRunObjectViewFunc f
  | .paginated, f => .ranAsyncRunListViewFunc f

/-- The body of the synchronous `context_func` closure (lines 60-63),
instrumented with the trace of controller-instance calls: filter the keyword
arguments (a raised `KeyError` propagates before anything else happens),
build the controller instance from the Route definition's factory, call
`check_permissions()` without `await` (a raised exception propagates before
any strategy runs), then return the strategy result unmodified. -/
def context_func (self : RouteFunction) (request : Nat) (args : List Nat) (kwargs : Kwargs) :
    Except PyExc Nat × List Event :=
  match self.filter_registered_kwargs kwargs with
  | .error e => (.error e, [])
  | .ok filtered =>
    let controller_instance := self.route_definition.create_view_func_instance request args filtered
    match callNoAwait controller_instance.check_permissions with
    | .error e => (.error e, [.createInstance, .checkPermissions])
    | .ok _ =>
      (self.run_view_func controller_instance,
        [.createInstance, .checkPermissions, sync_strategy_event self.kind self.api_func])

/-- The body of the asynchronous `context_func` closure (lines 71-74),
instrumented the same way; the strategy call is awaited, so its result or
exception is what the awaiting framework observes. -/
def async_context_func (self : RouteFunction) (request : Nat) (args : List Nat) (kwargs : Kwargs) :
    Except PyExc Nat × List Event :=
  match self.filter_registered_kwargs kwargs with
  | .error e => (.error e, [])
  | .ok filtered =>
    let controller_instance := self.route_definition.create_view_func_instance request args filtered
    match callNoAwait controller_instance.check_permissions with
    | .error e => (.error e, [.createInstance, .checkPermissions])
    | .ok _ =>
      (self.async_run_view_func controller_instance,
        [.createInstance, .checkPermissions, async_strategy_event self.kind self.api_func])

/-- The wrapped callable handed to the framework: whether it was defined
`async def` (a coroutine function), the parameter list of the `__signature__`
attached by signature resolution, and its request-time behaviour. -/
structure WrappedCallable where
  is_coroutine : Bool
  signature : List Parameter
  call : Nat → List Nat → Kwargs → Except PyExc Nat × List Event

/-- `RouteFunction.from_route` (lines 51-56): build the instance, then wrap
the handler with `convert_async_api_func_to_context_view` when
`is_async(api_func)` holds and with `convert_api_func_to_context_view`
otherwise.  Both converters run `_resolve_api_func_signature_`, which (for
`PaginatedRouteFunction`) mutates `registered_filter` on the instance the
closure reads at request time; the model therefore resolves first and lets
both the closure and the returned instance carry the resolved flag. -/
def from_route (kind : RFKind) (api_func : ApiFunc) (route_definition : Route) :
    WrappedCallable × RouteFunction :=
  let resolved := resolve_api_func_signature kind route_definition api_func
  let route_function : RouteFunction := ⟨kind, route_definition, api_func, resolved.2⟩
  if api_func.is_async then
    (⟨true, resolved.1, async_context_func route_function⟩, route_function)
  else
    (⟨false, resolved.1, context_func route_function⟩, route_function)

/-- Modelled from the spec: a parameter "whose default value is the
framework's query-parameter marker", i.e. whose default is an instance of
the ninja `Query` parameter class (the "framework-recognized default-value
sentinel identifying a parameter as framework-managed query input"). -/
def isQueryMarkerDefault (p : Parameter) : Bool :=
  match p.default with
  | .instV .query => true
  | _ => false

/-- A handler `def items(self, request, q=Query(...))`: its only required
parameter defaults to a `Query` instance, the usual way a query parameter is
declared. -/
def handlerWithQueryDefault : ApiFunc :=
  ⟨[⟨"self", .positionalOrKeyword, parameterEmpty, 0⟩,
    ⟨"request", .positionalOrKeyword, parameterEmpty, 0⟩,
    ⟨"q", .positionalOrKeyword, .instV .query, 5⟩], false⟩

/-- A handler `def items(self, request, q3=Query(...))` used to exhibit the
violation of the at-most-one-query-parameter invariant. -/
def handlerWithQueryDefault3 : ApiFunc :=
  ⟨[⟨"self", .positionalOrKeyword, parameterEmpty, 0⟩,
    ⟨"request", .positionalOrKeyword, parameterEmpty, 0⟩,
    ⟨"q3", .positionalOrKeyword, .instV .query, 6⟩], false⟩

/-- A handler `def items(self, request, some_id)`: its only required
parameter has no default, so `inspect` reports `Parameter.empty` (the class
`_empty`) as its default; it is not a query-type parameter. -/
def handlerWithBareParam : ApiFunc :=
  ⟨[⟨"self", .positionalOrKeyword, parameterEmpty, 0⟩,
    ⟨"request", .positionalOrKeyword, parameterEmpty, 0⟩,
    ⟨"some_id", .positionalOrKeyword, parameterEmpty, 1⟩], false⟩

/-- A minimal synchronous handler `def items(self, request)`. -/
def plainHandler : ApiFunc :=
  ⟨[⟨"self", .positionalOrKeyword, parameterEmpty, 0⟩,
    ⟨"request", .positionalOrKeyword, parameterEmpty, 0⟩], false⟩

/-- A controller instance whose permission check passes and whose six
strategies return distinct results, so theorem instances show which ran. -/
def okController : APIController :=
  ⟨.plain (.ok ()),
   fun _ => .ok 10, fun _ => .ok 11, fun _ => .ok 12,
   fun _ => .ok 20, fun _ => .ok 21, fun _ => .ok 22⟩

/-- A Route definition whose factory yields `okController` and whose resolved
paginated-request schema is the annotation identifier 7. -/
def okRoute : Route := ⟨fun _ _ _ => okController, 7⟩

/-- A controller instance whose plain permission check raises exception 9. -/
def permErrController : APIController :=
  ⟨.plain (.error (.exc 9)),
   fun _ => .ok 10, fun _ => .ok 11, fun _ => .ok 12,
   fun _ => .ok 20, fun _ => .ok 21, fun _ => .ok 22⟩

/-- A Route definition whose factory yields `permErrController`. -/
def permErrRoute : Route := ⟨fun _ _ _ => permErrController, 7⟩

/-- A controller instance whose permission check is an `async def` method
whose body would raise exception 3 if the coroutine were ever awaited. -/
def coroPermController : APIController :=
  ⟨.coroutine (.error (.exc 3)),
   fun _ => .ok 30, fun _ => .ok 31, fun _ => .ok 32,
   fun _ => .ok 40, fun _ => .ok 41, fun _ => .ok 42⟩

/-- A Route definition whose factory yields `coroPermController`. -/
def coroPermRoute : Route := ⟨fun _ _ _ => coroPermController, 7⟩

/-- The signature attached to the wrapped callable is the one produced by
signature resolution, on both the synchronous and the asynchronous branch of
`from_route`. -/
theorem from_route_signature_eq (k : RFKind) (f : ApiFunc) (rd : Route) :
    ((from_route k f rd).1).signature = (resolve_api_func_signature k rd f).1 := by
  cases h : f.is_async <;> simp [from_route, h]

/-- When `dict.pop 'filters'` succeeds, the result is the incoming dict with
the key removed, and the key is absent from the result. -/
theorem dict_pop_ok_spec (key : String) (kwargs m : Kwargs)
    (h : dict_pop key kwargs = .ok m) :
    m = kwargs.filter (fun entry => !(entry.1 == key))
    ∧ m.all (fun entry => !(entry.1 == key)) = true := by
  unfold dict_pop at h
  split at h
  · cases h
    refine ⟨rfl, List.all_eq_true.mpr fun e he => ?_⟩
    exact (List.mem_filter.mp he).2
  · cases h

/-- C1: the claim fails on the code.  For a handler whose required parameter
list contains a parameter whose default is the query-parameter marker (an
instance of `Query`, as in `q=Query(...)`), the override nonetheless appends
the synthetic `filters` parameter and sets `registered_filter` to true: the
test `type(param.default) == type(params.Query)` at line 111 compares the
default's class with the metaclass `type` (since `params.Query` is itself a
class), and a `Query` instance's class is `Query`, not `type`.  This theorem
evaluates the model at that failing input. -/
theorem c1_query_marker_default_not_detected :
    (get_required_api_func_signature handlerWithQueryDefault).any isQueryMarkerDefault = true
    ∧ paginated_resolve_api_func_signature okRoute handlerWithQueryDefault
      = (get_required_api_func_signature handlerWithQueryDefault
          ++ [filtersParameter okRoute], true) := by
  exact ⟨rfl, rfl⟩

/-- C2: the claim fails on the code.  For a handler with zero query-type
parameters but one required parameter without a default, nothing is appended
and `registered_filter` stays false: the missing default is
`inspect.Parameter.empty`, which is the class `_empty`, so its `type` is the
metaclass `type`, which equals `type(params.Query)`; line 111 therefore
reports a query parameter where there is none.  This theorem evaluates the
model at that failing input. -/
theorem c2_empty_default_blocks_injection :
    (get_required_api_func_signature handlerWithBareParam).all
        (fun p => !(isQueryMarkerDefault p)) = true
    ∧ paginated_resolve_api_func_signature okRoute handlerWithBareParam
      = (get_required_api_func_signature handlerWithBareParam, false) := by
  exact ⟨rfl, rfl⟩

/-- C3: the claim fails on the code.  For a handler that declares one
query-marker parameter `q3=Query(...)`, the resolved exposed signature
contains two parameters whose default is a query-parameter marker: the
handler's own and the synthetic `filters` appended because line 111 fails to
detect the existing one. -/
theorem c3_two_query_markers_in_exposed_signature :
    ((paginated_resolve_api_func_signature okRoute handlerWithQueryDefault3).1.countP
        isQueryMarkerDefault) = 2 := by
  rfl

/-- C7: `from_route` wraps the handler asynchronously exactly when the
handler is declared asynchronous, and synchronously otherwise. -/
theorem c7_from_route_async_parity (k : RFKind) (f : ApiFunc) (rd : Route) :
    ((from_route k f rd).1).is_coroutine = f.is_async := by
  cases h : f.is_async <;> simp [from_route, h]

/-- C4: whenever `filter_registered_kwargs` for a paginated route with
`registered_filter` set succeeds with result `m`, `m` is the incoming
keyword-argument dict with the `filters` key removed and contains no
`filters` entry (so the controller-instance factory never receives it);
and it is the identity — forwarding the dict unchanged — on the base
`RouteFunction`, on `RetrieveObjectRouteFunction`, and on
`PaginatedRouteFunction` while `registered_filter` is false. -/
theorem c4_filter_registered_kwargs_spec
    (b : Bool) (rd : Route) (f : ApiFunc) (kwargs m : Kwargs)
    (h : RouteFunction.filter_registered_kwargs ⟨.paginated, rd, f, true⟩ kwargs = .ok m) :
    RouteFunction.filter_registered_kwargs ⟨.base, rd, f, b⟩ kwargs = .ok kwargs
    ∧ RouteFunction.filter_registered_kwargs ⟨.retrieveObject, rd, f, b⟩ kwargs = .ok kwargs
    ∧ RouteFunction.filter_registered_kwargs ⟨.paginated, rd, f, false⟩ kwargs = .ok kwargs
    ∧ m = kwargs.filter (fun entry => !(entry.1 == "filters"))
    ∧ m.all (fun entry => !(entry.1 == "filters")) = true := by
  have hp : dict_pop "filters" kwargs = .ok m := h
  have hm := dict_pop_ok_spec "filters" kwargs m hp
  exact ⟨rfl, rfl, rfl, hm.1, hm.2⟩

/-- Closed instance of the C4 theorem at a dict holding a `filters` entry. -/
theorem c4_filter_registered_kwargs_spec_witness :
    RouteFunction.filter_registered_kwargs ⟨.base, okRoute, plainHandler, false⟩
        [("filters", 5), ("page", 1)] = .ok [("filters", 5), ("page", 1)]
    ∧ RouteFunction.filter_registered_kwargs ⟨.retrieveObject, okRoute, plainHandler, false⟩
        [("filters", 5), ("page", 1)] = .ok [("filters", 5), ("page", 1)]
    ∧ RouteFunction.filter_registered_kwargs ⟨.paginated, okRoute, plainHandler, false⟩
        [("filters", 5), ("page", 1)] = .ok [("filters", 5), ("page", 1)]
    ∧ [("page", 1)] = ([("filters", 5), ("page", 1)] : Kwargs).filter
        (fun entry => !(entry.1 == "filters"))
    ∧ ([("page", 1)] : Kwargs).all (fun entry => !(entry.1 == "filters")) = true :=
  c4_filter_registered_kwargs_spec false okRoute plainHandler
    [("filters", 5), ("page", 1)] [("page", 1)] (by rfl)

/-- C5: when the controller instance's permission check is a plain method
that raises, both the synchronous and the asynchronous wrapped callable
propagate that exception unchanged, and the trace shows the instance was
built and the check called but no execution-strategy method ran — for every
RouteFunction class, hence also for the overridden strategies. -/
theorem c5_permission_error_blocks_strategy
    (k : RFKind) (rd : Route) (f : ApiFunc) (b : Bool) (request : Nat) (args : List Nat)
    (kwargs filtered : Kwargs) (e : PyExc)
    (hf : RouteFunction.filter_registered_kwargs ⟨k, rd, f, b⟩ kwargs = .ok filtered)
    (hc : (rd.create_view_func_instance request args filtered).check_permissions
        = .plain (.error e)) :
    context_func ⟨k, rd, f, b⟩ request args kwargs
      = (.error e, [.createInstance, .checkPermissions])
    ∧ async_context_func ⟨k, rd, f, b⟩ request args kwargs
      = (.error e, [.createInstance, .checkPermissions]) := by
  constructor
  · simp [context_func, hf, hc, callNoAwait]
  · simp [async_context_func, hf, hc, callNoAwait]

/-- Closed instance of the C5 theorem at a permission check raising
exception 9. -/
theorem c5_permission_error_blocks_strategy_witness :
    context_func ⟨.base, permErrRoute, plainHandler, false⟩ 0 [] []
      = (.error (.exc 9), [.createInstance, .checkPermissions])
    ∧ async_context_func ⟨.base, permErrRoute, plainHandler, false⟩ 0 [] []
      = (.error (.exc 9), [.createInstance, .checkPermissions]) :=
  c5_permission_error_blocks_strategy .base permErrRoute plainHandler false 0 [] [] []
    (.exc 9) rfl rfl

/-- C6: once the permission check passes, the strategy invoked on the
controller instance is determined by the RouteFunction class — base calls
`run_view_func` / `async_run_view_func`, RetrieveObjectRouteFunction calls
`run_object_view_func` / `async_run_object_view_func`,
PaginatedRouteFunction calls `run_list_view_func` /
`async_run_list_view_func` — each passed the original handler, with the
strategy's result returned unmodified, in both modes. -/
theorem c6_strategy_dispatch_by_class
    (k : RFKind) (rd : Route) (f : ApiFunc) (b : Bool) (request : Nat) (args : List Nat)
    (kwargs filtered : Kwargs)
    (hf : RouteFunction.filter_registered_kwargs ⟨k, rd, f, b⟩ kwargs = .ok filtered)
    (hc : callNoAwait
        (rd.create_view_func_instance request args filtered).check_permissions = .ok ()) :
    context_func ⟨k, rd, f, b⟩ request args kwargs
      = ((match k with
          | .base => (rd.create_view_func_instance request args filtered).run_view_func f
          | .retrieveObject =>
              (rd.create_view_func_instance request args filtered).run_object_view_func f
          | .paginated =>
              (rd.create_view_func_instance request args filtered).run_list_view_func f),
         [.createInstance, .checkPermissions, sync_strategy_event k f])
    ∧ async_context_func ⟨k, rd, f, b⟩ request args kwargs
      = ((match k with
          | .base => (rd.create_view_func_instance request args filtered).async_run_view_func f
          | .retrieveObject =>
              (rd.create_view_func_instance request args filtered).async_run_object_view_func f
          | .paginated =>
              (rd.create_view_func_instance request args filtered).async_run_list_view_func f),
         [.createInstance, .checkPermissions, async_strategy_event k f]) := by
  cases k <;>
    exact ⟨by simp [context_func, hf, hc, RouteFunction.run_view_func],
           by simp [async_context_func, hf, hc, RouteFunction.async_run_view_func]⟩

/-- Closed instance of the C6 theorem for RetrieveObjectRouteFunction: the
object-retrieval strategies (results 11 and 21 of `okController`) run. -/
theorem c6_strategy_dispatch_by_class_witness :
    context_func ⟨.retrieveObject, okRoute, plainHandler, false⟩ 0 [] []
      = (.ok 11, [.createInstance, .checkPermissions, .ranRunObjectViewFunc plainHandler])
    ∧ async_context_func ⟨.retrieveObject, okRoute, plainHandler, false⟩ 0 [] []
      = (.ok 21, [.createInstance, .checkPermissions, .ranAsyncRunObjectViewFunc plainHandler]) :=
  c6_strategy_dispatch_by_class .retrieveObject okRoute plainHandler false 0 [] [] [] rfl rfl

/-- C9: in both the synchronous and the asynchronous wrapped callable the
permission check is invoked as a plain call with no `await`: when
`check_permissions` is a coroutine method, the call is recorded in the trace
but its body — whatever result or exception `r` it holds — never runs, and
both wrappers proceed to the execution strategy regardless of `r`. -/
theorem c9_check_permissions_not_awaited
    (k : RFKind) (rd : Route) (f : ApiFunc) (b : Bool) (request : Nat) (args : List Nat)
    (kwargs filtered : Kwargs) (r : Except PyExc Unit)
    (hf : RouteFunction.filter_registered_kwargs ⟨k, rd, f, b⟩ kwargs = .ok filtered)
    (hc : (rd.create_view_func_instance request args filtered).check_permissions
        = .coroutine r) :
    context_func ⟨k, rd, f, b⟩ request args kwargs
      = (RouteFunction.run_view_func ⟨k, rd, f, b⟩
            (rd.create_view_func_instance request args filtered),
         [.createInstance, .checkPermissions, sync_strategy_event k f])
    ∧ async_context_func ⟨k, rd, f, b⟩ request args kwargs
      = (RouteFunction.async_run_view_func ⟨k, rd, f, b⟩
            (rd.create_view_func_instance request args filtered),
         [.createInstance, .checkPermissions, async_strategy_event k f]) := by
  constructor
  · simp [context_func, hf, hc, callNoAwait]
  · simp [async_context_func, hf, hc, callNoAwait]

/-- Closed instance of the C9 theorem: the coroutine body would raise
exception 3, yet both wrappers run the strategy and succeed. -/
theorem c9_check_permissions_not_awaited_witness :
    context_func ⟨.base, coroPermRoute, plainHandler, false⟩ 0 [] []
      = (.ok 30, [.createInstance, .checkPermissions, .ranRunViewFunc plainHandler])
    ∧ async_context_func ⟨.base, coroPermRoute, plainHandler, false⟩ 0 [] []
      = (.ok 40, [.createInstance, .checkPermissions, .ranAsyncRunViewFunc plainHandler]) :=
  c9_check_permissions_not_awaited .base coroPermRoute plainHandler false 0 [] [] []
    (.error (.exc 3)) rfl rfl

/-- C10: when `registered_filter` is set and the incoming keyword arguments
hold no `filters` key, the unguarded `kwargs.pop('filters')` raises
`KeyError('filters')`, and both wrapped callables propagate it with an empty
trace: neither the controller-instance factory nor the permission check ever
runs. -/
theorem c10_missing_filters_raises_keyerror
    (rd : Route) (f : ApiFunc) (request : Nat) (args : List Nat) (kwargs : Kwargs)
    (h : kwargs.all (fun entry => !(entry.1 == "filters")) = true) :
    RouteFunction.filter_registered_kwargs ⟨.paginated, rd, f, true⟩ kwargs
      = .error (.keyError "filters")
    ∧ context_func ⟨.paginated, rd, f, true⟩ request args kwargs
      = (.error (.keyError "filters"), [])
    ∧ async_context_func ⟨.paginated, rd, f, true⟩ request args kwargs
      = (.error (.keyError "filters"), []) := by
  have hany : kwargs.any (fun entry => entry.1 == "filters") = false := by
    cases hq : kwargs.any (fun entry => entry.1 == "filters") with
    | false => rfl
    | true =>
      obtain ⟨x, hx, hpx⟩ := List.any_eq_true.mp hq
      have hall := List.all_eq_true.mp h x hx
      simp [hpx] at hall
  have hfil : RouteFunction.filter_registered_kwargs ⟨.paginated, rd, f, true⟩ kwargs
      = .error (.keyError "filters") := by
    simp [RouteFunction.filter_registered_kwargs, dict_pop, hany]
  exact ⟨hfil, by simp [context_func, hfil], by simp [async_context_func, hfil]⟩

/-- Closed instance of the C10 theorem at the dict holding only a `page`
entry. -/
theorem c10_missing_filters_raises_keyerror_witness :
    RouteFunction.filter_registered_kwargs ⟨.paginated, okRoute, plainHandler, true⟩
        [("page", 1)] = .error (.keyError "filters")
    ∧ context_func ⟨.paginated, okRoute, plainHandler, true⟩ 0 [] [("page", 1)]
      = (.error (.keyError "filters"), [])
    ∧ async_context_func ⟨.paginated, okRoute, plainHandler, true⟩ 0 [] [("page", 1)]
      = (.error (.keyError "filters"), []) :=
  c10_missing_filters_raises_keyerror okRoute plainHandler 0 [] [("page", 1)] (by decide)

/-- C8: for every handler and every RouteFunction class, the signature
attached to the wrapped callable contains no parameter named `context`,
`self` or `request`; the required list is exactly the handler's parameters
with those names dropped — a sublist of the original, so order, kinds,
defaults and annotations are preserved — and the attached signature is the
required list possibly extended by parameters named `filters` only. -/
theorem c8_exposed_signature_excludes_context_self_request
    (k : RFKind) (f : ApiFunc) (rd : Route) :
    ((from_route k f rd).1).signature.all
        (fun p => !(skip_parameters.contains p.name)) = true
    ∧ List.Sublist (get_required_api_func_signature f) f.params
    ∧ get_required_api_func_signature f
        = f.params.filter (fun p => !(skip_parameters.contains p.name))
    ∧ ∃ extra, ((from_route k f rd).1).signature
          = get_required_api_func_signature f ++ extra
        ∧ extra.all (fun p => p.name == "filters") = true := by
  have hsig := from_route_signature_eq k f rd
  have hreq : (get_required_api_func_signature f).all
      (fun p => !(skip_parameters.contains p.name)) = true :=
    List.all_eq_true.mpr fun p hp => (List.mem_filter.mp hp).2
  have hcase : ∃ extra, (resolve_api_func_signature k rd f).1
      = get_required_api_func_signature f ++ extra
      ∧ extra.all (fun p => p.name == "filters") = true := by
    cases k
    · exact ⟨[], by simp [resolve_api_func_signature, base_resolve_api_func_signature], rfl⟩
    · exact ⟨[], by simp [resolve_api_func_signature, base_resolve_api_func_signature], rfl⟩
    · unfold resolve_api_func_signature paginated_resolve_api_func_signature
      dsimp only
      split
      · exact ⟨[], by simp, rfl⟩
      · exact ⟨[filtersParameter rd], rfl, rfl⟩
  obtain ⟨extra, he, hex⟩ := hcase
  refine ⟨?_, List.filter_sublist _, rfl, ⟨extra, by rw [hsig, he], hex⟩⟩
  rw [hsig, he, List.all_append, hreq, Bool.true_and]
  refine List.all_eq_true.mpr fun p hp => ?_
  have hn : p.name = "filters" := by
    have := List.all_eq_true.mp hex p hp
    simpa using this
  simp [hn, skip_parameters]

end RouteFunctions
